import Mathlib

/-!
Verification of the distributed invocation and streaming-RPC layer of the
rallyspace/remotion repository. Each definition is a shallow embedding of a
function in `packages/lambda/src` (or `packages/core/src`), translated
directly from the TypeScript source; theorems settle the specification's
claims against those definitions.
-/

namespace Remotion

/-! Constants and helpers from `packages/lambda/src/shared/call-lambda.ts`. -/

/-- The constant `INVALID_JSON_MESSAGE` (call-lambda.ts line 26). -/
def INVALID_JSON_MESSAGE : String := "Cannot parse Lambda response as JSON"

/-- The constant `STREAM_STALL_TIMEOUT` (call-lambda.ts line 122): `30000 * 2` ms. -/
def STREAM_STALL_TIMEOUT : Nat := 30000 * 2

/-- The constant `LAMBDA_STREAM_STALL` (call-lambda.ts line 123). -/
def LAMBDA_STREAM_STALL : String :=
  "AWS did not invoke Lambda in " ++ toString STREAM_STALL_TIMEOUT ++ "ms"

/-- JavaScript `hay.includes(needle)`: substring containment. -/
def strIncludes (hay needle : String) : Bool :=
  hay.toList.tails.any (fun t => needle.toList.isPrefixOf t)

/-- The error message thrown by `parseJsonOrThrowSource` (call-lambda.ts line 41):
`Invalid JSON (TYPE): TEXT`, carrying the offending decoded text. -/
def invalidJsonErrorMessage (type asString : String) : String :=
  "Invalid JSON (" ++ type ++ "): " ++ asString

/-- The retry trigger of `callLambdaWithStreaming` (call-lambda.ts lines 79-85):
the attempt is re-issued exactly when the error message contains
`INVALID_JSON_MESSAGE`, or the stall message, or the text `aborted`. -/
def shouldRetryStreamError (msg : String) : Bool :=
  strIncludes msg INVALID_JSON_MESSAGE ||
  strIncludes msg LAMBDA_STREAM_STALL ||
  strIncludes msg "aborted"

/-- The retry loop of `callLambdaWithStreaming` (call-lambda.ts lines 59-95).
`attempts k` is the outcome of the k-th attempt of
`callLambdaWithStreamingWithoutRetry` (success, or the thrown error's message).
On failure the source first propagates when `retriesRemaining === 0`, then
propagates unless the message matches the trigger set, otherwise recurses with
the counter decremented. -/
def callLambdaWithStreaming (attempts : Nat → Except String Unit) :
    Nat → Nat → Except String Unit
  | k, retriesRemaining =>
    match attempts k with
    | .ok _ => .ok ()
    | .error msg =>
      match retriesRemaining with
      | 0 => .error msg
      | r + 1 =>
        if shouldRetryStreamError msg then
          callLambdaWithStreaming attempts (k + 1) r
        else
          .error msg

/-! The stall guard `invokeStreamOrTimeout` (call-lambda.ts lines 125-167):
`Promise.race` between the invocation's own first acknowledgment and a
rejection timer of `STREAM_STALL_TIMEOUT` ms. `ackArrivalMs = some t` means the
remote began responding after `t` ms; `none` means it never did. The returned
Bool records whether `cleanup()` (clearing the pending timer) ran, which in the
source happens exactly on the success path after the race. -/

/-- Race of the streaming invocation against the stall deadline. -/
def invokeStreamOrTimeout {α : Type} (response : α) (ackArrivalMs : Option Nat) :
    Except String α × Bool :=
  match ackArrivalMs with
  | none => (.error LAMBDA_STREAM_STALL, false)
  | some t =>
    if t < STREAM_STALL_TIMEOUT then
      (.ok response, true)
    else
      (.error LAMBDA_STREAM_STALL, false)

/-- C1 (code bug): the structured-payload parse failure throws
`Invalid JSON (TYPE): TEXT` (call-lambda.ts line 41), but the retry trigger
looks for `Cannot parse Lambda response as JSON`, which that message never
contains; hence a parse failure is propagated immediately without retry even
with a fresh retry counter, while the stall condition does match the trigger. -/
theorem streamRetry_skipsParseFailures :
    shouldRetryStreamError (invalidJsonErrorMessage "frames-rendered" "some-bad-payload")
      = false ∧
    callLambdaWithStreaming
      (fun _ => .error (invalidJsonErrorMessage "frames-rendered" "some-bad-payload")) 0 2
      = .error (invalidJsonErrorMessage "frames-rendered" "some-bad-payload") ∧
    shouldRetryStreamError LAMBDA_STREAM_STALL = true ∧
    shouldRetryStreamError "connection aborted" = true := by
  refine ⟨by decide, ?_, by decide, by decide⟩
  rfl

/-- C2: the stall deadline is fixed at 60000 ms; if the acknowledgment arrives
strictly before it the call succeeds with the remote's response and the pending
timer is cleared; if no acknowledgment arrives within the deadline the call
fails with the stall-guard error. -/
theorem invokeStreamOrTimeout_race {α : Type} (response : α) (ack : Option Nat) :
    STREAM_STALL_TIMEOUT = 60000 ∧
    (∀ t, ack = some t → t < STREAM_STALL_TIMEOUT →
      invokeStreamOrTimeout response ack = (Except.ok response, true)) ∧
    ((∀ t, ack = some t → STREAM_STALL_TIMEOUT ≤ t) →
      (invokeStreamOrTimeout response ack).1 = Except.error LAMBDA_STREAM_STALL) := by
  refine ⟨rfl, ?_, ?_⟩
  · intro t ht hlt
    subst ht
    simp [invokeStreamOrTimeout, hlt]
  · intro h
    match hack : ack with
    | none => simp [invokeStreamOrTimeout]
    | some t =>
      have := h t rfl
      simp [invokeStreamOrTimeout, Nat.not_lt.mpr this]

/-- C2 witness: an acknowledgment after 1000 ms wins the race and clears the
timer; a never-arriving acknowledgment yields the stall error. -/
theorem invokeStreamOrTimeout_race_witness :
    invokeStreamOrTimeout (0 : Nat) (some 1000) = (Except.ok 0, true) ∧
    (invokeStreamOrTimeout (0 : Nat) none).1 = Except.error LAMBDA_STREAM_STALL :=
  ⟨(invokeStreamOrTimeout_race 0 (some 1000)).2.1 1000 rfl (by decide),
   (invokeStreamOrTimeout_race 0 (none : Option Nat)).2.2
     (fun t ht => by cases ht)⟩

/-! Frame decoding: the `makeStreamer` callback of
`callLambdaWithStreamingWithoutRetry` (call-lambda.ts lines 187-205), which
decodes each `(status, messageTypeId, data)` triple according to the message
type's declared payload format. -/

/-- Declared payload format of a message type (the `formatMap` table values). -/
inductive PayloadFormat
  | json
  | binary
deriving DecidableEq

/-- The six message types of the worker protocol. -/
inductive MessageType
  | lambdaInvoked
  | framesRendered
  | videoChunkRendered
  | audioChunkRendered
  | chunkComplete
  | errorOccurred
deriving DecidableEq

/-- Wire name of each message type. -/
def MessageType.asString : MessageType → String
  | .lambdaInvoked => "lambda-invoked"
  | .framesRendered => "frames-rendered"
  | .videoChunkRendered => "video-chunk-rendered"
  | .audioChunkRendered => "audio-chunk-rendered"
  | .chunkComplete => "chunk-complete"
  | .errorOccurred => "error-occurred"

/-- Modelled from the spec: the static type-to-format table `formatMap` lives in
`packages/lambda/src/functions/streaming/streaming.ts`, which is not among the
provided sources. The spec fixes the media-payload messages
(`video-chunk-rendered{bytes}`, `audio-chunk-rendered{bytes}`) as raw bytes and
every other variant as structured data. -/
def formatMap : MessageType → PayloadFormat
  | .videoChunkRendered => .binary
  | .audioChunkRendered => .binary
  | _ => .json

/-- `parseJsonOrThrowSource` (call-lambda.ts lines 36-43): decode the bytes as
UTF-8 text, attempt a JSON parse, and on failure throw an error carrying the
message type and the offending text. `decode` models `TextDecoder.decode` and
`parse` models `JSON.parse` (both external runtime functions); `J` is the type
of parsed JSON values. -/
def parseJsonOrThrowSource {J : Type} (decode : List Nat → String)
    (parse : String → Option J) (data : List Nat) (type : String) :
    Except String J :=
  let asString := decode data
  match parse asString with
  | some value => .ok value
  | none => .error (invalidJsonErrorMessage type asString)

/-- Payload of a decoded streaming message: structured value or raw bytes. -/
inductive InnerPayload (J : Type)
  | json (value : J)
  | raw (data : List Nat)
deriving DecidableEq

/-- The payload-decoding step of the `makeStreamer` callback (call-lambda.ts
lines 191-194): a structured-format type goes through
`parseJsonOrThrowSource`; a binary-format type passes its bytes through
unmodified. -/
def decodeFramePayload {J : Type} (decode : List Nat → String)
    (parse : String → Option J) (mt : MessageType) (data : List Nat) :
    Except String (InnerPayload J) :=
  match formatMap mt with
  | .json =>
    match parseJsonOrThrowSource decode parse data mt.asString with
    | .ok value => .ok (.json value)
    | .error e => .error e
  | .binary => .ok (.raw data)

/-- C4: a payload-parse error is raised if and only if the message type's
declared format is structured data and the bytes fail to parse; the raised
error carries the offending decoded text; raw-byte message types pass their
payload through unmodified and never raise. -/
theorem decodeFramePayload_malformedIff {J : Type} (decode : List Nat → String)
    (parse : String → Option J) (mt : MessageType) (data : List Nat) :
    ((∃ e, decodeFramePayload decode parse mt data = Except.error e) ↔
      (formatMap mt = PayloadFormat.json ∧ parse (decode data) = none)) ∧
    (formatMap mt = PayloadFormat.json → parse (decode data) = none →
      decodeFramePayload decode parse mt data =
        Except.error (invalidJsonErrorMessage mt.asString (decode data))) ∧
    (formatMap mt = PayloadFormat.binary →
      decodeFramePayload decode parse mt data = Except.ok (InnerPayload.raw data)) := by
  refine ⟨?_, ?_, ?_⟩
  · constructor
    · rintro ⟨e, he⟩
      cases hf : formatMap mt with
      | json =>
        refine ⟨rfl, ?_⟩
        cases hp : parse (decode data) with
        | none => rfl
        | some v =>
          simp [decodeFramePayload, parseJsonOrThrowSource, hf, hp] at he
      | binary =>
        simp [decodeFramePayload, hf] at he
    · rintro ⟨hf, hp⟩
      exact ⟨invalidJsonErrorMessage mt.asString (decode data),
        by simp [decodeFramePayload, parseJsonOrThrowSource, hf, hp]⟩
  · intro hf hp
    simp [decodeFramePayload, parseJsonOrThrowSource, hf, hp]
  · intro hf
    simp [decodeFramePayload, hf]

/-- C4 witness: a failing parse on a structured type raises the error carrying
the offending text, and a binary type passes bytes through for the same
failing parser. -/
theorem decodeFramePayload_malformedIff_witness :
    decodeFramePayload (fun _ => "nonsense") (fun _ => (none : Option Unit))
      MessageType.framesRendered [7, 8] =
      Except.error (invalidJsonErrorMessage "frames-rendered" "nonsense") ∧
    decodeFramePayload (fun _ => "nonsense") (fun _ => (none : Option Unit))
      MessageType.videoChunkRendered [7, 8] =
      Except.ok (InnerPayload.raw [7, 8]) :=
  ⟨(decodeFramePayload_malformedIff (fun _ => "nonsense")
      (fun _ => (none : Option Unit)) MessageType.framesRendered [7, 8]).2.1 rfl rfl,
   (decodeFramePayload_malformedIff (fun _ => "nonsense")
      (fun _ => (none : Option Unit)) MessageType.videoChunkRendered [7, 8]).2.2 rfl⟩

/-! Worker Handler: `renderHandler` and `rendererHandler` in
`packages/lambda/src/functions/renderer.ts`. -/

/-- A JavaScript Error value: its `name`, `message` and `stack` fields. -/
structure JsError where
  name : String
  message : String
  stack : String
deriving DecidableEq

/-- The fields of the renderer `LambdaPayload` that the retry machinery reads:
chunk index, attempt number and retries remaining. `retriesLeft` is an `Int`
because the JavaScript arithmetic `retriesLeft - 1` can in principle go below
zero. -/
structure RenderParams where
  chunk : Nat
  attempt : Nat
  retriesLeft : Int
deriving DecidableEq

/-- Error name that must never be retried (renderer.ts line 435). -/
def CANCELLED_ERROR_NAME : String := "CancelledError"

/-- The retry classification of `rendererHandler` (renderer.ts lines 433-438):
`shouldRetry = isFlakyError(err) && params.retriesLeft > 0 && !(err.name ===
CancelledError)`. `flaky` models `isFlakyError` from
`shared/is-flaky-error.ts` (not among the provided sources): the known-flaky
condition, kept abstract. -/
def workerShouldRetry (flaky : JsError → Bool) (p : RenderParams)
    (err : JsError) : Bool :=
  flaky err && decide (0 < p.retriesLeft) && !(err.name == CANCELLED_ERROR_NAME)

/-- The `errorInfo` record built by `rendererHandler` (renderer.ts lines
451-463). -/
structure ErrorInfo where
  name : String
  message : String
  stack : String
  chunk : Nat
  isFatal : Bool
  attempt : Nat
  totalAttempts : Int
  willRetry : Bool
deriving DecidableEq

/-- Construction of the `errorInfo` payload from the failure and the params. -/
def mkErrorInfo (p : RenderParams) (err : JsError) (sr : Bool) : ErrorInfo :=
  { name := err.name
    message := err.message
    stack := err.stack
    chunk := p.chunk
    isFatal := !sr
    attempt := p.attempt
    totalAttempts := p.retriesLeft + (p.attempt : Int)
    willRetry := sr }

/-- A message emitted by the worker through `onStream`, as decoded on the
orchestrator side. -/
inductive WorkerMsg
  | lambdaInvoked (attempt : Nat)
  | framesRendered (rendered encoded : Nat)
  | videoChunkRendered (payload : List Nat)
  | audioChunkRendered (payload : List Nat)
  | chunkComplete (start rendered : Nat)
  | errorOccurred (error : String) (shouldRetry : Bool) (info : ErrorInfo)
deriving DecidableEq

/-- Whether a message is the `error-occurred` terminal variant. -/
def WorkerMsg.isErrorMsg : WorkerMsg → Bool
  | .errorOccurred _ _ _ => true
  | _ => false

/-- External-world outcomes that drive one execution of `renderHandler`
(renderer.ts lines 35-400) once it has reached the rendering stage: the
throttled progress callbacks that pass the report-point filter, the outcome of
`internalRenderMedia`, whether an audio output location exists, the outcome of
the synchronous `fs.readFileSync` on the audio output (line 301, performed
only when that location exists), the bytes read from scratch, the outcome of
`fs.readFileSync` on the video output (line 326), whether the codec is
audio-only (which relabels the video chunk message), and the outcomes of the
three streamed sends. -/
structure RenderEnv where
  progress : List (Nat × Nat)
  renderError : Option JsError
  hasAudioOutput : Bool
  audioReadError : Option JsError
  audioBytes : List Nat
  videoReadError : Option JsError
  videoBytes : List Nat
  isAudioCodec : Bool
  audioSendError : Option JsError
  videoSendError : Option JsError
  completeSendFails : Bool
  startTime : Nat
  endTime : Nat
deriving DecidableEq

/-- The message shapes that `renderHandler` itself sends through `onStream`
(renderer.ts lines 203, 220, 299, 333, 357): `error-occurred` is not among
them — only `rendererHandler`'s catch block sends that variant. -/
inductive RhEvent
  | invoked (attempt : Nat)
  | progress (rendered encoded : Nat)
  | videoChunk (payload : List Nat)
  | audioChunk (payload : List Nat)
  | complete (start rendered : Nat)
deriving DecidableEq

/-- The `onStream` message corresponding to each `renderHandler` send. -/
def RhEvent.toMsg : RhEvent → WorkerMsg
  | .invoked a => .lambdaInvoked a
  | .progress r e => .framesRendered r e
  | .videoChunk b => .videoChunkRendered b
  | .audioChunk b => .audioChunkRendered b
  | .complete s r => .chunkComplete s r

/-- One run of `renderHandler` (renderer.ts lines 35-400) from the rendering
stage on: returns the ordered list of sends it made through `onStream`, its
result (normal return or thrown error), and whether the scratch-artifact
deletions (the `fs.promises.rm` calls of lines 387-391) were initiated. In the
source those `rm` calls sit only inside the final `Promise.all` on the path
after a successful render and successful read of the video output; there is no
`finally` around them. A failed `chunk-complete` send is swallowed by its
`.catch` (lines 365-375) and does not reject the `Promise.all`; failed audio
or video sends rethrow and do. The `rm` promises are created when the array is
built, so they are initiated even when a send has failed. The synchronous
read of the audio output (line 301) happens while building the audio
`onStream` argument, so its failure throws before any audio message is sent
and before the video read. -/
def renderHandlerEvents (p : RenderParams) (env : RenderEnv) :
    List RhEvent × Except JsError Unit × Bool :=
  let head := RhEvent.invoked p.attempt ::
    env.progress.map (fun pr => RhEvent.progress pr.1 pr.2)
  match env.renderError with
  | some err => (head, .error err, false)
  | none =>
    match (if env.hasAudioOutput then env.audioReadError else none) with
    | some err => (head, .error err, false)
    | none =>
      let audioMsgs :=
        if env.hasAudioOutput then [RhEvent.audioChunk env.audioBytes] else []
      match env.videoReadError with
      | some err => (head ++ audioMsgs, .error err, false)
      | none =>
        let videoMsg :=
          if env.isAudioCodec then RhEvent.audioChunk env.videoBytes
          else RhEvent.videoChunk env.videoBytes
        let msgs := head ++ audioMsgs ++
          [videoMsg, RhEvent.complete env.startTime env.endTime]
        let sendFailure : Option JsError :=
          match (if env.hasAudioOutput then env.audioSendError else none) with
          | some e => some e
          | none => env.videoSendError
        match sendFailure with
        | some e => (msgs, .error e, true)
        | none => (msgs, .ok (), true)

/-- The run of `renderHandler` with its sends expressed as worker messages. -/
def renderHandlerRun (p : RenderParams) (env : RenderEnv) :
    List WorkerMsg × Except JsError Unit × Bool :=
  let r := renderHandlerEvents p env
  (r.1.map RhEvent.toMsg, r.2)

/-- One run of `rendererHandler` (renderer.ts lines 404-473): on a thrown
error outside the test environment it classifies the failure, emits exactly
one `error-occurred` message with the `errorInfo`, and rethrows. -/
def rendererHandlerRun (flaky : JsError → Bool) (testEnv : Bool)
    (p : RenderParams) (env : RenderEnv) :
    List WorkerMsg × Except JsError Unit :=
  match (renderHandlerRun p env).2.1 with
  | .ok _ => ((renderHandlerRun p env).1, .ok ())
  | .error err =>
    if testEnv then ((renderHandlerRun p env).1, .error err)
    else
      ((renderHandlerRun p env).1 ++
        [WorkerMsg.errorOccurred err.stack (workerShouldRetry flaky p err)
          (mkErrorInfo p err (workerShouldRetry flaky p err))],
        .error err)

/-- Helper: every message `renderHandler` itself emits is a progress or data
or completion message, never `error-occurred`. -/
theorem renderHandlerRun_noErrorMsg (p : RenderParams) (env : RenderEnv) :
    ∀ m ∈ (renderHandlerRun p env).1, m.isErrorMsg = false := by
  intro m hm
  obtain ⟨ev, _, rfl⟩ := List.mem_map.mp hm
  cases ev <;> rfl

/-- Example error value used to instantiate the theorems. -/
def errEx : JsError := { name := "TypeError", message := "boom", stack := "stack-of-boom" }

/-- Example renderer payload: chunk 3, attempt 1, one retry remaining. -/
def paramsEx : RenderParams := { chunk := 3, attempt := 1, retriesLeft := 1 }

/-- Example execution in which `internalRenderMedia` fails. -/
def envRenderFailEx : RenderEnv :=
  { progress := [(10, 0)]
    renderError := some errEx
    hasAudioOutput := false
    audioReadError := none
    audioBytes := []
    videoReadError := none
    videoBytes := [1, 2]
    isAudioCodec := false
    audioSendError := none
    videoSendError := none
    completeSendFails := false
    startTime := 100
    endTime := 200 }

/-- Example execution in which rendering succeeds but every streamed send
fails. -/
def envSendFailEx : RenderEnv :=
  { progress := []
    renderError := none
    hasAudioOutput := true
    audioReadError := none
    audioBytes := [5]
    videoReadError := none
    videoBytes := [1, 2]
    isAudioCodec := false
    audioSendError := some errEx
    videoSendError := some errEx
    completeSendFails := true
    startTime := 0
    endTime := 1 }

/-- Helper: on a rendering failure outside the test environment, the run of
`rendererHandler` is the `renderHandler` trace followed by exactly the one
`error-occurred` message, and the error is rethrown. -/
theorem rendererHandlerRun_error_trace (flaky : JsError → Bool)
    (p : RenderParams) (env : RenderEnv) (err : JsError)
    (hfail : (renderHandlerRun p env).2.1 = Except.error err) :
    rendererHandlerRun flaky false p env =
      ((renderHandlerRun p env).1 ++
        [WorkerMsg.errorOccurred err.stack (workerShouldRetry flaky p err)
          (mkErrorInfo p err (workerShouldRetry flaky p err))],
        Except.error err) := by
  unfold rendererHandlerRun
  rw [hfail]
  simp

/-- C5: when the rendering work fails (outside the test environment), the
worker emits exactly one `error-occurred` message, carrying the `errorInfo`
and a `shouldRetry` flag that is true if and only if the failure is
known-flaky and retries remain and the failure is not an explicit
cancellation; the `error-occurred` message is the last message of the run (no
success message follows it) and the handler terminates by rethrowing. -/
theorem rendererHandler_errorPath (flaky : JsError → Bool) (p : RenderParams)
    (env : RenderEnv) (err : JsError)
    (hfail : (renderHandlerRun p env).2.1 = Except.error err) :
    (rendererHandlerRun flaky false p env).1 =
      (renderHandlerRun p env).1 ++
        [WorkerMsg.errorOccurred err.stack (workerShouldRetry flaky p err)
          (mkErrorInfo p err (workerShouldRetry flaky p err))] ∧
    (rendererHandlerRun flaky false p env).1.countP
      (fun m => WorkerMsg.isErrorMsg m) = 1 ∧
    (rendererHandlerRun flaky false p env).1.getLast? =
      some (WorkerMsg.errorOccurred err.stack (workerShouldRetry flaky p err)
        (mkErrorInfo p err (workerShouldRetry flaky p err))) ∧
    (workerShouldRetry flaky p err = true ↔
      (flaky err = true ∧ 0 < p.retriesLeft ∧ err.name ≠ CANCELLED_ERROR_NAME)) ∧
    (rendererHandlerRun flaky false p env).2 = Except.error err := by
  have h1 := rendererHandlerRun_error_trace flaky p env err hfail
  refine ⟨by rw [h1], ?_, ?_, ?_, by rw [h1]⟩
  · rw [h1]
    rw [List.countP_append]
    have h0 : (renderHandlerRun p env).1.countP
        (fun m => WorkerMsg.isErrorMsg m) = 0 := by
      rw [List.countP_eq_zero]
      intro a ha
      simp [renderHandlerRun_noErrorMsg p env a ha]
    rw [h0]
    rfl
  · rw [h1]
    simp
  · simp only [workerShouldRetry, Bool.and_eq_true, decide_eq_true_eq,
      Bool.not_eq_true', beq_eq_false_iff_ne, ne_eq, and_assoc]

/-- C5 witness: a flaky failure with one retry remaining yields a single
`error-occurred` message and a rethrow. -/
theorem rendererHandler_errorPath_witness :
    (rendererHandlerRun (fun _ => true) false paramsEx envRenderFailEx).2 =
      Except.error errEx ∧
    (rendererHandlerRun (fun _ => true) false paramsEx envRenderFailEx).1.countP
      (fun m => WorkerMsg.isErrorMsg m) = 1 :=
  ⟨(rendererHandler_errorPath (fun _ => true) paramsEx envRenderFailEx errEx
      rfl).2.2.2.2,
   (rendererHandler_errorPath (fun _ => true) paramsEx envRenderFailEx errEx
      rfl).2.1⟩

/-- C7 counterexample: when `internalRenderMedia` fails, `renderHandler`
throws before reaching the final `Promise.all` that contains the
`fs.promises.rm` cleanup calls, so on that exit path the local scratch
artifacts are not deleted, contradicting deletion on every exit path. -/
theorem renderHandler_noCleanupOnRenderFailure :
    (renderHandlerRun paramsEx envRenderFailEx).2.2 = false ∧
    (renderHandlerRun paramsEx envRenderFailEx).2.1 = Except.error errEx :=
  ⟨rfl, rfl⟩

/-- C7 amended: the scratch deletions are initiated exactly when the handler
reaches its final streaming step, i.e. when the render, the synchronous read
of the audio output (when one exists), and the read of the video output all
succeed; deletion then happens regardless of whether the streamed sends
succeeded, but on the earlier failure exit paths nothing is deleted. -/
theorem renderHandler_cleanupIffReachesStreaming (p : RenderParams)
    (env : RenderEnv) :
    (renderHandlerRun p env).2.2 = true ↔
      (env.renderError = none ∧
        (env.hasAudioOutput = true → env.audioReadError = none) ∧
        env.videoReadError = none) := by
  rcases henv : env.renderError with _ | e1 <;>
  rcases haud : env.hasAudioOutput with _ | _ <;>
  rcases haread : env.audioReadError with _ | e5 <;>
  rcases hvid : env.videoReadError with _ | e2 <;>
  rcases hasend : env.audioSendError with _ | e3 <;>
  rcases hvsend : env.videoSendError with _ | e4 <;>
    simp [renderHandlerRun, renderHandlerEvents, henv, haud, haread, hvid,
      hasend, hvsend]

/-- C7 amended witness: with every streamed send failing, the deletions are
still initiated, while the render-failure execution deletes nothing. -/
theorem renderHandler_cleanupIffReachesStreaming_witness :
    (renderHandlerRun paramsEx envSendFailEx).2.2 = true :=
  (renderHandler_cleanupIffReachesStreaming paramsEx envSendFailEx).mpr
    ⟨rfl, fun _ => rfl, rfl⟩

/-! Chunk Orchestrator: `streamRenderer` and `streamRendererFunctionWithRetry`
in `packages/lambda/src/functions/helpers/stream-renderer.ts`. -/

/-- The `StreamRendererResponse` union (stream-renderer.ts lines 12-20). -/
inductive StreamRendererResponse
  | success
  | failed (error : String) (shouldRetry : Bool)
deriving DecidableEq

/-- JavaScript `String(n).padStart(8, '0')`. -/
def padStart8 (n : Nat) : String :=
  String.mk (List.replicate (8 - (toString n).length) '0') ++ toString n

/-- The deterministic chunk file name `join(outdir, chunk:INDEX:KIND)`
(stream-renderer.ts lines 58-61 and 73-76). -/
def chunkFileName (outdir : String) (chunk : Nat) (kind : String) : String :=
  outdir ++ "/chunk:" ++ padStart8 chunk ++ ":" ++ kind

/-- Observable state accumulated by `streamRenderer`'s message handler: file
writes, the `files` list, the `overallProgress` update calls in order of
arrival, and the promise's resolution (first resolve wins, later resolves are
no-ops). -/
structure OrchState where
  writes : List (String × List Nat)
  files : List String
  frames : List (Nat × Nat × Nat)
  invokedCalls : List Nat
  completedCalls : List (Nat × Nat × Nat)
  errorsLogged : List ErrorInfo
  resolved : Option StreamRendererResponse
deriving DecidableEq

/-- The state before any message arrives. -/
def initialOrchState : OrchState :=
  { writes := []
    files := []
    frames := []
    invokedCalls := []
    completedCalls := []
    errorsLogged := []
    resolved := none }

/-- JavaScript promise resolution: only the first `resolve` takes effect. -/
def OrchState.resolveWith (st : OrchState) (r : StreamRendererResponse) :
    OrchState :=
  match st.resolved with
  | some _ => st
  | none => { st with resolved := some r }

/-- The `receivedStreamingPayload` handler of `streamRenderer`
(stream-renderer.ts lines 42-132), one message at a time. On `error-occurred`
it logs the error, zeroes the chunk's frame counters, and resolves the attempt
as a failure carrying the message's `shouldRetry` flag. -/
def handleMessage (chunk : Nat) (outdir : String) (st : OrchState)
    (m : WorkerMsg) : OrchState :=
  match m with
  | .lambdaInvoked _ =>
    { st with invokedCalls := st.invokedCalls ++ [chunk] }
  | .framesRendered r e =>
    { st with frames := st.frames ++ [(chunk, r, e)] }
  | .videoChunkRendered payload =>
    { st with
      writes := st.writes ++ [(chunkFileName outdir chunk "video", payload)]
      files := st.files ++ [chunkFileName outdir chunk "video"] }
  | .audioChunkRendered payload =>
    { st with
      writes := st.writes ++ [(chunkFileName outdir chunk "audio", payload)]
      files := st.files ++ [chunkFileName outdir chunk "audio"] }
  | .chunkComplete s r =>
    { st with completedCalls := st.completedCalls ++ [(chunk, s, r)] }
  | .errorOccurred e sr info =>
    OrchState.resolveWith
      { st with
        errorsLogged := st.errorsLogged ++ [info]
        frames := st.frames ++ [(chunk, 0, 0)] }
      (.failed e sr)

/-- One attempt of `streamRenderer` (stream-renderer.ts lines 22-156): the
handler processes the decoded messages in arrival order; afterwards the
`callLambdaWithStreaming` promise settles — on success it resolves `success`,
on a propagated network-layer error it resolves a failure with
`shouldRetry: false` carrying the error text (the `.catch` of lines 148-154);
both are no-ops if an `error-occurred` message already resolved the attempt. -/
def streamRenderer (chunk : Nat) (outdir : String) (trace : List WorkerMsg)
    (netResult : Except String Unit) : OrchState × StreamRendererResponse :=
  match (trace.foldl (handleMessage chunk outdir) initialOrchState).resolved with
  | some r => (trace.foldl (handleMessage chunk outdir) initialOrchState, r)
  | none =>
    match netResult with
    | .ok _ =>
      ((trace.foldl (handleMessage chunk outdir) initialOrchState).resolveWith
        .success, .success)
    | .error e =>
      ((trace.foldl (handleMessage chunk outdir) initialOrchState).resolveWith
        (.failed e false), .failed e false)

/-- Helper: a fold over messages none of which is `error-occurred` never
resolves the attempt. -/
theorem foldl_handleMessage_resolved_none (chunk : Nat) (outdir : String)
    (l : List WorkerMsg) (h : ∀ m ∈ l, m.isErrorMsg = false) (st : OrchState)
    (hst : st.resolved = none) :
    (l.foldl (handleMessage chunk outdir) st).resolved = none := by
  induction l generalizing st with
  | nil => exact hst
  | cons m rest ih =>
    have hm := h m (List.mem_cons_self m rest)
    have hrest : ∀ x ∈ rest, x.isErrorMsg = false :=
      fun x hx => h x (List.mem_cons_of_mem m hx)
    refine ih hrest (handleMessage chunk outdir st m) ?_
    cases m with
    | lambdaInvoked a => exact hst
    | framesRendered r e => exact hst
    | videoChunkRendered b => exact hst
    | audioChunkRendered b => exact hst
    | chunkComplete s r => exact hst
    | errorOccurred e sr info => exact absurd hm (by simp [WorkerMsg.isErrorMsg])

/-- Helper: once the attempt is resolved, processing any further messages
leaves the resolution unchanged — `resolve` is a no-op on a settled promise
and no handler branch clears it. -/
theorem foldl_handleMessage_resolved_some (chunk : Nat) (outdir : String)
    (l : List WorkerMsg) (st : OrchState) (r : StreamRendererResponse)
    (hst : st.resolved = some r) :
    (l.foldl (handleMessage chunk outdir) st).resolved = some r := by
  induction l generalizing st with
  | nil => exact hst
  | cons m rest ih =>
    refine ih (handleMessage chunk outdir st m) ?_
    cases m with
    | lambdaInvoked a => exact hst
    | framesRendered r2 e2 => exact hst
    | videoChunkRendered b => exact hst
    | audioChunkRendered b => exact hst
    | chunkComplete s2 r2 => exact hst
    | errorOccurred e2 sr2 info2 =>
      simp [handleMessage, OrchState.resolveWith, hst]

/-- Helper: for a trace whose first `error-occurred` message carries flag
`sr`, the fold resolves the attempt as that failure, whatever messages
follow. -/
theorem foldl_handleMessage_first_error (chunk : Nat) (outdir : String)
    (pre post : List WorkerMsg) (h : ∀ m ∈ pre, m.isErrorMsg = false)
    (e : String) (sr : Bool) (info : ErrorInfo) :
    ((pre ++ WorkerMsg.errorOccurred e sr info :: post).foldl
      (handleMessage chunk outdir) initialOrchState).resolved =
      some (StreamRendererResponse.failed e sr) := by
  rw [List.foldl_append]
  have hnone := foldl_handleMessage_resolved_none chunk outdir pre h
    initialOrchState rfl
  rw [List.foldl_cons]
  apply foldl_handleMessage_resolved_some
  simp [handleMessage, OrchState.resolveWith, hnone]

/-- Helper: when a message resolved the attempt, `streamRenderer` settles
with that resolution and the state of the whole processed trace. -/
theorem streamRenderer_eq_of_resolved (chunk : Nat) (outdir : String)
    (trace : List WorkerMsg) (net : Except String Unit)
    (r : StreamRendererResponse)
    (h : (trace.foldl (handleMessage chunk outdir) initialOrchState).resolved
      = some r) :
    streamRenderer chunk outdir trace net =
      (trace.foldl (handleMessage chunk outdir) initialOrchState, r) := by
  unfold streamRenderer
  split
  · next r2 heq =>
    rw [h] at heq
    injection heq with h2
    rw [h2]
  · next heq =>
    rw [h] at heq
    cases heq

/-- Helper: when no message resolved the attempt and the streaming client
propagated a network-layer error, `streamRenderer` settles as a failure with
`shouldRetry` false carrying the error text. -/
theorem streamRenderer_network_error (chunk : Nat) (outdir : String)
    (trace : List WorkerMsg) (e : String)
    (h : ∀ m ∈ trace, WorkerMsg.isErrorMsg m = false) :
    (streamRenderer chunk outdir trace (Except.error e)).2 =
      StreamRendererResponse.failed e false := by
  have hn := foldl_handleMessage_resolved_none chunk outdir trace h
    initialOrchState rfl
  unfold streamRenderer
  split
  · next r2 heq =>
    rw [hn] at heq
    cases heq
  · rfl

/-- Example `errorInfo` payload used in concrete traces. -/
def errInfoEx : ErrorInfo :=
  { name := "TypeError"
    message := "boom"
    stack := "stack-of-boom"
    chunk := 3
    isFatal := true
    attempt := 1
    totalAttempts := 2
    willRetry := false }

/-- C6 counterexample: the handler has no stopped flag, so messages arriving
after `error-occurred` — as happens when the streaming client re-invokes the
same handler after a terminal `aborted` error (call-lambda.ts lines 79-93)
— are still processed: with a `video-chunk-rendered` message after the
`error-occurred`, the attempt resolves as the failure yet a file write is
performed afterwards, a write that does not happen when the trace stops at
the `error-occurred` message. -/
theorem streamRenderer_processesAfterError :
    (streamRenderer 3 "out"
      [WorkerMsg.errorOccurred "stack-of-boom" false errInfoEx,
       WorkerMsg.lambdaInvoked 2, WorkerMsg.videoChunkRendered [9]]
      (Except.ok ())).2 = StreamRendererResponse.failed "stack-of-boom" false ∧
    (streamRenderer 3 "out"
      [WorkerMsg.errorOccurred "stack-of-boom" false errInfoEx,
       WorkerMsg.lambdaInvoked 2, WorkerMsg.videoChunkRendered [9]]
      (Except.ok ())).1.writes = [(chunkFileName "out" 3 "video", [9])] ∧
    (streamRenderer 3 "out"
      [WorkerMsg.errorOccurred "stack-of-boom" false errInfoEx]
      (Except.ok ())).1.writes = [] :=
  ⟨rfl, rfl, rfl⟩

/-- C6 amended: when the handler receives the attempt's first
`error-occurred` message it resolves the attempt as a failure carrying that
message's `shouldRetry` flag, and no later message can change that resolution
(the first resolve wins); the handler does not, however, stop processing:
messages arriving after the `error-occurred` — e.g. from a stream-layer
re-invocation with the same handler — are still processed with their file
writes and progress updates. -/
theorem streamRenderer_firstErrorResolves (chunk : Nat) (outdir : String)
    (pre post : List WorkerMsg) (e : String) (sr : Bool) (info : ErrorInfo)
    (net : Except String Unit)
    (hpre : ∀ m ∈ pre, WorkerMsg.isErrorMsg m = false) :
    (streamRenderer chunk outdir
      (pre ++ WorkerMsg.errorOccurred e sr info :: post) net).2 =
      StreamRendererResponse.failed e sr ∧
    (streamRenderer chunk outdir
      (pre ++ WorkerMsg.errorOccurred e sr info :: post) net).1 =
      (pre ++ WorkerMsg.errorOccurred e sr info :: post).foldl
        (handleMessage chunk outdir) initialOrchState := by
  have hres := foldl_handleMessage_first_error chunk outdir pre post hpre
    e sr info
  have heq := streamRenderer_eq_of_resolved chunk outdir
    (pre ++ WorkerMsg.errorOccurred e sr info :: post) net
    (StreamRendererResponse.failed e sr) hres
  exact ⟨by rw [heq], by rw [heq]⟩

/-- C6 amended witness: a worker-generated failing run followed by a
re-invocation's messages resolves with the first error's flag while the later
messages are still folded into the state. -/
theorem streamRenderer_firstErrorResolves_witness :
    (streamRenderer 3 "out"
      ([WorkerMsg.lambdaInvoked 1] ++
        WorkerMsg.errorOccurred "stack-of-boom" false errInfoEx ::
          [WorkerMsg.videoChunkRendered [9]]) (Except.ok ())).2 =
      StreamRendererResponse.failed "stack-of-boom" false :=
  (streamRenderer_firstErrorResolves 3 "out" [WorkerMsg.lambdaInvoked 1]
    [WorkerMsg.videoChunkRendered [9]] "stack-of-boom" false errInfoEx
    (Except.ok ())
    (fun m hm => by
      rw [List.mem_singleton.mp hm]
      rfl)).1

/-- The new payload value built for a retry (stream-renderer.ts lines
202-206): attempt incremented, retries remaining decremented, via object
spread into a fresh value. -/
def nextPayload (p : RenderParams) : RenderParams :=
  { p with attempt := p.attempt + 1, retriesLeft := p.retriesLeft - 1 }

/-- Terminal outcome of `streamRendererFunctionWithRetry`. -/
inductive RetryOutcome
  | success
  | fatal (error : String)
  | outOfFuel
deriving DecidableEq

/-- `streamRendererFunctionWithRetry` (stream-renderer.ts lines 158-210).
`res q` is the settled `StreamRendererResponse` of `streamRenderer` for
payload `q`. On `success` it returns; on a failure with `shouldRetry` false it
throws the error (fatal for the job); on a failure with `shouldRetry` true it
records a retry event and recurses on the new payload. The source recursion
has no fuel; `fuel` is only the termination measure of this embedding and the
theorems supply enough of it. Returns the outcome and the ordered list of
payloads attempted. -/
def runWithRetry (res : RenderParams → StreamRendererResponse) :
    Nat → RenderParams → RetryOutcome × List RenderParams
  | 0, p => (.outOfFuel, [p])
  | fuel + 1, p =>
    match res p with
    | .success => (.success, [p])
    | .failed e sr =>
      if sr then
        ((runWithRetry res fuel (nextPayload p)).1,
          p :: (runWithRetry res fuel (nextPayload p)).2)
      else (.fatal e, [p])

/-- Helper: the attempted-payload list is never empty. -/
theorem runWithRetry_payloads_ne_nil (res : RenderParams → StreamRendererResponse)
    (f : Nat) (p : RenderParams) : (runWithRetry res f p).2 ≠ [] := by
  cases f with
  | zero => simp [runWithRetry]
  | succ f =>
    unfold runWithRetry
    cases res p with
    | success => simp
    | failed e sr => cases sr <;> simp

/-- Helper: the first attempted payload is the initial one. -/
theorem runWithRetry_head (res : RenderParams → StreamRendererResponse)
    (f : Nat) (p : RenderParams) : (runWithRetry res f p).2.head? = some p := by
  cases f with
  | zero => rfl
  | succ f =>
    unfold runWithRetry
    cases res p with
    | success => rfl
    | failed e sr => cases sr <;> rfl

/-- A result function is application-generated when every failure's
`shouldRetry` flag is one the system can actually produce for that payload:
`false` (the network-failure resolution of `streamRenderer`), or the worker's
classification `workerShouldRetry` for some flaky predicate and error. -/
def appGenerated (res : RenderParams → StreamRendererResponse) : Prop :=
  ∀ q e sr, res q = StreamRendererResponse.failed e sr →
    sr = false ∨ ∃ flaky err, sr = workerShouldRetry flaky q err

/-- Helper: an application-generated `shouldRetry = true` failure implies
retries remained on its payload, because the worker's classification
conjoins `retriesLeft > 0`. -/
theorem appGenerated_retriesPos (res : RenderParams → StreamRendererResponse)
    (hgen : appGenerated res) (q : RenderParams) (e : String)
    (h : res q = StreamRendererResponse.failed e true) : 0 < q.retriesLeft := by
  rcases hgen q e true h with hf | ⟨flaky, err, hw⟩
  · cases hf
  · have hw2 := hw.symm
    simp only [workerShouldRetry, Bool.and_eq_true, decide_eq_true_eq] at hw2
    exact hw2.1.2

/-- C3: for an application-generated failed attempt, the orchestrator retries
the chunk if and only if the failure carries `shouldRetry = true` and the
payload had retries remaining at the time of failure; otherwise the failure
is raised as fatal for the whole job. -/
theorem chunkRetry_iff (res : RenderParams → StreamRendererResponse)
    (hgen : appGenerated res) (p : RenderParams) (f : Nat) (e : String)
    (sr : Bool) (h : res p = StreamRendererResponse.failed e sr) :
    (2 ≤ (runWithRetry res (f + 1) p).2.length ↔
      (sr = true ∧ 0 < p.retriesLeft)) ∧
    (¬(sr = true ∧ 0 < p.retriesLeft) →
      runWithRetry res (f + 1) p = (RetryOutcome.fatal e, [p])) := by
  cases sr with
  | false =>
    have hrun : runWithRetry res (f + 1) p = (RetryOutcome.fatal e, [p]) := by
      unfold runWithRetry
      rw [h]
      rfl
    constructor
    · constructor
      · intro hlen
        rw [hrun] at hlen
        simp at hlen
      · rintro ⟨hc, _⟩
        cases hc
    · intro _
      exact hrun
  | true =>
    have hpos := appGenerated_retriesPos res hgen p e h
    constructor
    · constructor
      · intro _
        exact ⟨rfl, hpos⟩
      · intro _
        unfold runWithRetry
        rw [h]
        simp only [if_pos]
        have hne := runWithRetry_payloads_ne_nil res f (nextPayload p)
        have hlen := List.length_pos.mpr hne
        simp only [List.length_cons]
        omega
    · intro hne
      exact absurd ⟨rfl, hpos⟩ hne

/-- C3 witness: a network-level failure (shouldRetry false) is fatal at once. -/
theorem chunkRetry_iff_witness :
    runWithRetry (fun _ => StreamRendererResponse.failed "network failure" false)
      1 paramsEx = (RetryOutcome.fatal "network failure", [paramsEx]) :=
  (chunkRetry_iff (fun _ => StreamRendererResponse.failed "network failure" false)
    (fun _ _ _ hq => Or.inl (by injection hq with h1 h2; exact h2.symm))
    paramsEx 0 "network failure" false rfl).2 (by simp)

/-- Consecutive-payload relation: each later payload of the retry sequence is
the spread-copy of its predecessor. -/
def retryChain : List RenderParams → Prop
  | [] => True
  | [_] => True
  | p :: q :: rest => q = nextPayload p ∧ retryChain (q :: rest)

/-- C8: across the payload sequence of one chunk's application-level retries,
each step is the spread-copy with attempt incremented by one and retries
remaining decremented by one (hence a new value, the attempt strictly
increasing and retries remaining strictly decreasing), and retries remaining
never becomes negative. -/
theorem chunkSpec_retryEvolution (res : RenderParams → StreamRendererResponse)
    (hgen : appGenerated res) (f : Nat) (p : RenderParams)
    (h0 : 0 ≤ p.retriesLeft) :
    retryChain (runWithRetry res f p).2 ∧
    (∀ q ∈ (runWithRetry res f p).2, 0 ≤ q.retriesLeft) ∧
    (∀ q : RenderParams, (nextPayload q).attempt = q.attempt + 1 ∧
      (nextPayload q).retriesLeft = q.retriesLeft - 1 ∧ nextPayload q ≠ q) := by
  have main : ∀ f2 p2, 0 ≤ p2.retriesLeft →
      retryChain (runWithRetry res f2 p2).2 ∧
      ∀ q ∈ (runWithRetry res f2 p2).2, 0 ≤ q.retriesLeft := by
    intro f2
    induction f2 with
    | zero =>
      intro p2 hp
      refine ⟨trivial, ?_⟩
      intro q hq
      simp [runWithRetry] at hq
      subst hq
      exact hp
    | succ f2 ih =>
      intro p2 hp
      unfold runWithRetry
      cases hres : res p2 with
      | success =>
        refine ⟨trivial, ?_⟩
        intro q hq
        simp at hq
        subst hq
        exact hp
      | failed e sr =>
        cases sr with
        | false =>
          simp only [Bool.false_eq_true, if_neg, not_false_eq_true]
          refine ⟨trivial, ?_⟩
          intro q hq
          simp at hq
          subst hq
          exact hp
        | true =>
          have hpos := appGenerated_retriesPos res hgen p2 e hres
          have hnext : 0 ≤ (nextPayload p2).retriesLeft := by
            simp only [nextPayload]
            omega
          obtain ⟨ihc, ihm⟩ := ih (nextPayload p2) hnext
          simp only [if_pos]
          constructor
          · have hhead := runWithRetry_head res f2 (nextPayload p2)
            rcases hl : (runWithRetry res f2 (nextPayload p2)).2 with _ | ⟨q, rest⟩
            · exact absurd hl (runWithRetry_payloads_ne_nil res f2 (nextPayload p2))
            · rw [hl] at hhead
              injection hhead with hq2
              rw [hl] at ihc
              exact ⟨hq2, ihc⟩
          · intro q hq
            rcases List.mem_cons.mp hq with hq1 | hq2
            · rw [hq1]
              exact hp
            · exact ihm q hq2
  obtain ⟨hc, hm⟩ := main f p h0
  refine ⟨hc, hm, ?_⟩
  intro q
  refine ⟨rfl, rfl, ?_⟩
  intro hEq
  have hAtt := congrArg RenderParams.attempt hEq
  simp only [nextPayload] at hAtt
  omega

/-- C8 witness: a successful first attempt yields the one-element chain with
retries remaining still non-negative. -/
theorem chunkSpec_retryEvolution_witness :
    retryChain (runWithRetry (fun _ => StreamRendererResponse.success)
      1 paramsEx).2 ∧
    ∀ q ∈ (runWithRetry (fun _ => StreamRendererResponse.success) 1 paramsEx).2,
      0 ≤ q.retriesLeft :=
  ⟨(chunkSpec_retryEvolution (fun _ => StreamRendererResponse.success)
      (fun _ _ _ hq => nomatch hq) 1 paramsEx (by decide)).1,
   (chunkSpec_retryEvolution (fun _ => StreamRendererResponse.success)
      (fun _ _ _ hq => nomatch hq) 1 paramsEx (by decide)).2.1⟩

/-- C9: an attempt that ends in a network-level failure (the streaming client
propagated an error and no `error-occurred` message had resolved the attempt)
settles the chunk as failed with `shouldRetry` false, and the orchestrator's
retry loop then raises it as fatal with no further application-level
retries. -/
theorem networkFailure_fatalNoRetry (p : RenderParams) (outdir : String)
    (trace : List WorkerMsg) (e : String) (f : Nat)
    (hclean : ∀ m ∈ trace, WorkerMsg.isErrorMsg m = false)
    (res : RenderParams → StreamRendererResponse)
    (hres : res p = (streamRenderer p.chunk outdir trace (Except.error e)).2) :
    (streamRenderer p.chunk outdir trace (Except.error e)).2 =
      StreamRendererResponse.failed e false ∧
    runWithRetry res (f + 1) p = (RetryOutcome.fatal e, [p]) := by
  have h1 := streamRenderer_network_error p.chunk outdir trace e hclean
  refine ⟨h1, ?_⟩
  rw [h1] at hres
  unfold runWithRetry
  rw [hres]
  rfl

/-- C9 witness: a stream that delivered no messages and then failed at the
network layer is fatal for the chunk with a single attempted payload. -/
theorem networkFailure_fatalNoRetry_witness :
    runWithRetry
      (fun _ => (streamRenderer paramsEx.chunk "out" []
        (Except.error "socket hang up")).2) 1 paramsEx =
      (RetryOutcome.fatal "socket hang up", [paramsEx]) :=
  (networkFailure_fatalNoRetry paramsEx "out" [] "socket hang up" 0
    (fun _ hm => nomatch hm)
    (fun _ => (streamRenderer paramsEx.chunk "out" []
      (Except.error "socket hang up")).2) rfl).2

/-! The `useMediaBuffering` hook of `packages/core/src/use-media-buffering.ts`. -/

/-- Events that can be dispatched on the media element while the effect is
mounted. -/
inductive MediaEvent
  | waiting
  | canplay
deriving DecidableEq

/-- Result of a JavaScript call through a variable: calling a function value
succeeds; calling an uninitialized (`undefined`) variable throws a
`TypeError`. -/
inductive JsCallResult
  | ok
  | typeError
deriving DecidableEq

/-- The effect's local variable `let cleanup: () => void`
(use-media-buffering.ts line 12): it starts out uninitialized and is assigned
a function only inside the `waiting` listener (lines 33-35). -/
def cleanupVarAfter (events : List MediaEvent) : Option Unit :=
  if events.contains MediaEvent.waiting then some () else none

/-- Invoking the function the effect returns (lines 40-42), which calls
`cleanup()` unconditionally: a `TypeError` results when no `waiting` event
ever assigned the variable. -/
def invokeReturnedCleanup (events : List MediaEvent) : JsCallResult :=
  match cleanupVarAfter events with
  | some _ => .ok
  | none => .typeError

/-- One mount of `useMediaBuffering` followed by the invocation of its effect
cleanup: with a null element or `shouldBuffer` false the effect returns no
cleanup function (nothing is invoked, `none`); otherwise the returned cleanup
is invoked after the listed events. -/
def useMediaBufferingCleanup (elementPresent shouldBuffer : Bool)
    (events : List MediaEvent) : Option JsCallResult :=
  if elementPresent = false then none
  else if shouldBuffer = false then none
  else some (invokeReturnedCleanup events)

/-- C10 (code bug): with a present element and `shouldBuffer` true, invoking
the effect's cleanup crashes with a `TypeError` when no `waiting` event was
ever dispatched, because `cleanup` is still uninitialized; it only succeeds
once a `waiting` event has assigned it. -/
theorem useMediaBufferingCleanup_crashesWithoutWaiting :
    useMediaBufferingCleanup true true [] = some JsCallResult.typeError ∧
    useMediaBufferingCleanup true true [MediaEvent.waiting] =
      some JsCallResult.ok :=
  ⟨rfl, rfl⟩

end Remotion
